import Mathlib

/-!
Shallow embedding of the SubVT backend core (validator list pipeline,
shared-buffer updater and server, stake statistics) for checking the
natural-language specification against the source.

Source files embedded:
  - subvt-types/src/substrate/mod.rs   (accounts, stakes, EraStakers)
  - subvt-types/src/subvt.rs           (validator records, summaries, updates)
  - subvt-validator-list-updater/src/lib.rs
  - subvt-validator-list-server/src/lib.rs
-/

set_option maxRecDepth 4000

/-- Balances are Substrate `u128` amounts; stake values in the claims stay far
below `2^128`, so they are embedded as `Nat`. -/
abbrev Balance := Nat

/-- Modelled from the spec: `AccountId` (defined in `subvt-types/src/crypto.rs`,
which is not part of the provided sources) is a 32-byte public key used as an
opaque identifier with decidable equality; embedded as a wrapped `Nat`. -/
structure AccountId where
  value : Nat
deriving DecidableEq

/-- On-chain identity registration (`IdentityRegistration` in
`subvt-types/src/substrate/mod.rs`). -/
structure IdentityRegistration where
  display : Option String
  email : Option String
  riot : Option String
  twitter : Option String
  web : Option String
  confirmed : Bool
deriving DecidableEq

/-- Account record (`Account` in `subvt-types/src/substrate/mod.rs`): id,
optional identity, optional boxed parent account (sub-identity linkage),
optional child display and discovery/death block fields. -/
inductive Account where
  | mk (id : AccountId) (identity : Option IdentityRegistration)
       (parent : Option Account) (child_display : Option String)
       (discovered_at : Option Nat) (killed_at : Option Nat)

def Account.id : Account → AccountId
  | .mk i _ _ _ _ _ => i

/-- Decidable equality for `Account` (hand-written because the parent field
makes the type nested-recursive). -/
def Account.decEq : (a b : Account) → Decidable (a = b)
  | .mk i1 d1 none c1 da1 k1, .mk i2 d2 none c2 da2 k2 =>
      decidable_of_iff (i1 = i2 ∧ d1 = d2 ∧ c1 = c2 ∧ da1 = da2 ∧ k1 = k2)
        (by constructor
            · rintro ⟨rfl, rfl, rfl, rfl, rfl⟩; rfl
            · intro h; injection h with h1 h2 h3 h4 h5 h6; exact ⟨h1, h2, h4, h5, h6⟩)
  | .mk i1 d1 (some p1) c1 da1 k1, .mk i2 d2 (some p2) c2 da2 k2 =>
      match Account.decEq p1 p2 with
      | isTrue hp =>
          decidable_of_iff (i1 = i2 ∧ d1 = d2 ∧ c1 = c2 ∧ da1 = da2 ∧ k1 = k2)
            (by subst hp
                constructor
                · rintro ⟨rfl, rfl, rfl, rfl, rfl⟩; rfl
                · intro h; injection h with h1 h2 h3 h4 h5 h6; exact ⟨h1, h2, h4, h5, h6⟩)
      | isFalse hp =>
          isFalse (by
            intro h; injection h with h1 h2 h3 h4 h5 h6
            exact hp (by injection h3))
  | .mk _ _ none _ _ _, .mk _ _ (some _) _ _ _ =>
      isFalse (by intro h; injection h with h1 h2 h3 h4 h5 h6; cases h3)
  | .mk _ _ (some _) _ _ _, .mk _ _ none _ _ _ =>
      isFalse (by intro h; injection h with h1 h2 h3 h4 h5 h6; cases h3)

instance : DecidableEq Account := Account.decEq

/-- A nominator's active stake on a validator (`NominatorStake`). -/
structure NominatorStake where
  account : Account
  stake : Balance
deriving DecidableEq

/-- Active staking information for one active validator (`ValidatorStake`). -/
structure ValidatorStake where
  account : Account
  self_stake : Balance
  total_stake : Balance
  nominators : List NominatorStake
deriving DecidableEq

/-- Era in the SubVT domain (`Era`). -/
structure Era where
  index : Nat
  start_timestamp : Nat
  end_timestamp : Nat
deriving DecidableEq

/-- All active stakers of an era (`EraStakers`). -/
structure EraStakers where
  era : Era
  stakers : List ValidatorStake

/-- Total stake in the era (`EraStakers::total_stake`):
sum of the `total_stake` of every staker. -/
def EraStakers.total_stake (es : EraStakers) : Balance :=
  (es.stakers.map (fun validator_stake => validator_stake.total_stake)).sum

/-- Minimum stake backing an active validator (`EraStakers::min_stake`).
The source calls `Iterator::min_by_key` (first minimal element on ties) and
then `unwrap()`; the panic on an empty list is embedded as `none`. -/
def EraStakers.min_stake (es : EraStakers) : Option (Account × Balance) :=
  match es.stakers with
  | [] => none
  | x :: xs =>
      let m := xs.foldl
        (fun acc y => if y.total_stake < acc.total_stake then y else acc) x
      some (m.account, m.total_stake)

/-- Maximum stake backing an active validator (`EraStakers::max_stake`).
The source calls `Iterator::max_by_key` (last maximal element on ties) and
then `unwrap()`; the panic on an empty list is embedded as `none`. -/
def EraStakers.max_stake (es : EraStakers) : Option (Account × Balance) :=
  match es.stakers with
  | [] => none
  | x :: xs =>
      let m := xs.foldl
        (fun acc y => if acc.total_stake ≤ y.total_stake then y else acc) x
      some (m.account, m.total_stake)

/-- Average stake (`EraStakers::average_stake`): the sum of all total stakes
divided by the staker count. Rust `u128` division panics when the divisor is
zero; the panic is embedded as `none`. -/
def EraStakers.average_stake (es : EraStakers) : Option Balance :=
  match es.stakers with
  | [] => none
  | _ :: _ =>
      some ((es.stakers.map (fun validator_stake => validator_stake.total_stake)).sum
        / es.stakers.length)

/-- Median stake as computed by the source (`EraStakers::median_stake`):
`self.stakers[self.stakers.len() / 2].total_stake`, indexing the stakers list
as stored, without sorting. The out-of-range panic on an empty list is
embedded as `none`. -/
def EraStakers.median_stake (es : EraStakers) : Option Balance :=
  (es.stakers.get? (es.stakers.length / 2)).map
    (fun validator_stake => validator_stake.total_stake)

/-- Median stake as the specification describes it: the `total_stake` of the
element at index `len / 2` of the stakers list sorted in ascending order by
`total_stake`. -/
def EraStakers.median_stake_sorted (es : EraStakers) : Option Balance :=
  let sorted := es.stakers.insertionSort
    (fun a b => a.total_stake ≤ b.total_stake)
  (sorted.get? (sorted.length / 2)).map
    (fun validator_stake => validator_stake.total_stake)

/-- Validator commission and block preferences (`ValidatorPreferences`). -/
structure ValidatorPreferences where
  commission_per_billion : Nat
  blocks_nominations : Bool
deriving DecidableEq

/-- Staking ledger amounts for one stash (`Stake`). -/
structure Stake where
  stash_account_id : AccountId
  total_amount : Balance
  active_amount : Balance
deriving DecidableEq

/-- Projection of `Stake` kept in summaries (`StakeSummary` with its
`From<&Stake>` conversion). -/
structure StakeSummary where
  stash_account_id : AccountId
  active_amount : Balance
deriving DecidableEq

def StakeSummary.from (stake : Stake) : StakeSummary :=
  { stash_account_id := stake.stash_account_id
    active_amount := stake.active_amount }

/-- A nominator's delegation (`Nomination`). -/
structure Nomination where
  stash_account_id : AccountId
  submission_era_index : Nat
  target_account_ids : List AccountId
  stake : Stake
deriving DecidableEq

/-- Summary of a list of nominations (`InactiveNominationsSummary` with its
`From<&Vec<Nomination>>` conversion: the count and the fold of the active
amounts). -/
structure InactiveNominationsSummary where
  nomination_count : Nat
  total_amount : Balance
deriving DecidableEq

def InactiveNominationsSummary.from
    (nominations : List Nomination) : InactiveNominationsSummary :=
  { nomination_count := nominations.length
    total_amount := nominations.foldl (fun a b => a + b.stake.active_amount) 0 }

/-- Reward destination tagged variant (`RewardDestination`). -/
inductive RewardDestination where
  | Staked
  | Stash
  | Controller
  | Account (account_id : AccountId)
  | None
deriving DecidableEq

/-- Identity summary (`IdentityRegistrationSummary` with its
`From<&IdentityRegistration>` conversion). -/
structure IdentityRegistrationSummary where
  display : Option String
  confirmed : Bool
deriving DecidableEq

def IdentityRegistrationSummary.from
    (identity : IdentityRegistration) : IdentityRegistrationSummary :=
  { display := identity.display, confirmed := identity.confirmed }

/-- Modelled from the spec: `AccountSummary` (imported by
`subvt-types/src/subvt.rs` from the substrate module but not present in the
provided sources) is the account projection kept in a validator summary — the
account id together with the identity summary. -/
structure AccountSummary where
  id : AccountId
  identity : Option IdentityRegistrationSummary
deriving DecidableEq

def AccountSummary.from (account : Account) : AccountSummary :=
  match account with
  | .mk i identity _ _ _ _ =>
      { id := i, identity := identity.map IdentityRegistrationSummary.from }

/-- The per-validator record of `subvt-types/src/subvt.rs`
(`InactiveValidator`, the record the list pipeline stores and diffs; its
`#[diff_key]` field is `account`). -/
structure InactiveValidator where
  account : Account
  controller_account : Account
  preferences : ValidatorPreferences
  self_stake : Stake
  reward_destination : RewardDestination
  next_session_keys : String
  active_next_session : Bool
  nominations : List Nomination
  oversubscribed : Bool
  slashed : Bool
deriving DecidableEq

/-- The list-client projection (`InactiveValidatorSummary`; its
`#[diff_key]` field is `account`). -/
structure InactiveValidatorSummary where
  account : AccountSummary
  preferences : ValidatorPreferences
  self_stake : StakeSummary
  active_next_session : Bool
  nominations : InactiveNominationsSummary
  oversubscribed : Bool
  slashed : Bool
deriving DecidableEq

/-- Summary projection (`From<&InactiveValidator> for
InactiveValidatorSummary`). -/
def InactiveValidatorSummary.from
    (validator : InactiveValidator) : InactiveValidatorSummary :=
  { account := AccountSummary.from validator.account
    preferences := validator.preferences
    self_stake := StakeSummary.from validator.self_stake
    active_next_session := validator.active_next_session
    nominations := InactiveNominationsSummary.from validator.nominations
    oversubscribed := validator.oversubscribed
    slashed := validator.slashed }

/-- Modelled from the spec: `ValidatorDetails`, the canonical per-validator
record assembled by the updater and mirrored by the server (its defining
module is not among the provided sources; the provided
`subvt-types/src/subvt.rs` contains the record under the earlier name
`InactiveValidator`, without the `is_active` flag and the enrichment
counters). Field list follows the spec's data model section and the
enrichment assignments in the updater source. -/
structure ValidatorDetails where
  account : Account
  controller_account : Account
  preferences : ValidatorPreferences
  self_stake : Stake
  reward_destination : RewardDestination
  next_session_keys : String
  is_active : Bool
  active_next_session : Bool
  nominations : List Nomination
  oversubscribed : Bool
  slashed : Bool
  slash_count : Nat
  offline_offence_count : Nat
  active_era_count : Nat
  inactive_era_count : Nat
  total_reward_points : Nat
  unclaimed_era_indices : List Nat
  blocks_authored : Nat
  reward_points : Nat
  heartbeat_received : Bool
  onekv_candidate_record_id : Option Nat
  onekv_rank : Option Nat
  onekv_is_valid : Option Bool
deriving DecidableEq

/-- Modelled from the spec: the pure summary projection
(`ValidatorSummary::from(&ValidatorDetails)`, not among the provided sources)
projects the same seven fields as the provided
`From<&InactiveValidator> for InactiveValidatorSummary` impl. -/
def ValidatorSummary.from (validator : ValidatorDetails) : InactiveValidatorSummary :=
  { account := AccountSummary.from validator.account
    preferences := validator.preferences
    self_stake := StakeSummary.from validator.self_stake
    active_next_session := validator.active_next_session
    nominations := InactiveNominationsSummary.from validator.nominations
    oversubscribed := validator.oversubscribed
    slashed := validator.slashed }

/-!
The structural diff engine. The `Diff` derive macro (`subvt-proc-macro`) that
generates `get_diff` and `apply_diff` for the records below is not among the
provided sources; the diff types and both operations are modelled from the
spec's diff-engine section: a diff carries the key field (marked
`#[diff_key]`, the `account` field for all three records) and, for each value
field that changed, the new value; applying an update overwrites each present
value field and leaves absent value fields unchanged.
-/

/-- Modelled from the spec: the update diff for `InactiveValidator` (key field
`account`, every other field a value field). -/
structure InactiveValidatorDiff where
  account : Account
  controller_account : Option Account
  preferences : Option ValidatorPreferences
  self_stake : Option Stake
  reward_destination : Option RewardDestination
  next_session_keys : Option String
  active_next_session : Option Bool
  nominations : Option (List Nomination)
  oversubscribed : Option Bool
  slashed : Option Bool
deriving DecidableEq

/-- Helper of the modelled diff engine: a changed value field contributes the
new value, an unchanged one is omitted. -/
def diffField {α : Type} [DecidableEq α] (old new : α) : Option α :=
  if old = new then none else some new

/-- Modelled from the spec: `x.get_diff(&y)` for `InactiveValidator` — the key
field plus the new value of every changed value field. -/
def InactiveValidator.get_diff
    (x y : InactiveValidator) : InactiveValidatorDiff :=
  { account := x.account
    controller_account := diffField x.controller_account y.controller_account
    preferences := diffField x.preferences y.preferences
    self_stake := diffField x.self_stake y.self_stake
    reward_destination := diffField x.reward_destination y.reward_destination
    next_session_keys := diffField x.next_session_keys y.next_session_keys
    active_next_session := diffField x.active_next_session y.active_next_session
    nominations := diffField x.nominations y.nominations
    oversubscribed := diffField x.oversubscribed y.oversubscribed
    slashed := diffField x.slashed y.slashed }

/-- Modelled from the spec: `x.apply_diff(&d)` for `InactiveValidator` — each
present value field of the diff overwrites the local field, absent value
fields are left unchanged, the key field is untouched. -/
def InactiveValidator.apply_diff
    (x : InactiveValidator) (d : InactiveValidatorDiff) : InactiveValidator :=
  { account := x.account
    controller_account := d.controller_account.getD x.controller_account
    preferences := d.preferences.getD x.preferences
    self_stake := d.self_stake.getD x.self_stake
    reward_destination := d.reward_destination.getD x.reward_destination
    next_session_keys := d.next_session_keys.getD x.next_session_keys
    active_next_session := d.active_next_session.getD x.active_next_session
    nominations := d.nominations.getD x.nominations
    oversubscribed := d.oversubscribed.getD x.oversubscribed
    slashed := d.slashed.getD x.slashed }

/-- Modelled from the spec: the update diff for `InactiveValidatorSummary`
(key field `account`). -/
structure InactiveValidatorSummaryDiff where
  account : AccountSummary
  preferences : Option ValidatorPreferences
  self_stake : Option StakeSummary
  active_next_session : Option Bool
  nominations : Option InactiveNominationsSummary
  oversubscribed : Option Bool
  slashed : Option Bool
deriving DecidableEq

/-- Modelled from the spec: `x.get_diff(&y)` for `InactiveValidatorSummary`. -/
def InactiveValidatorSummary.get_diff
    (x y : InactiveValidatorSummary) : InactiveValidatorSummaryDiff :=
  { account := x.account
    preferences := diffField x.preferences y.preferences
    self_stake := diffField x.self_stake y.self_stake
    active_next_session := diffField x.active_next_session y.active_next_session
    nominations := diffField x.nominations y.nominations
    oversubscribed := diffField x.oversubscribed y.oversubscribed
    slashed := diffField x.slashed y.slashed }

/-- Modelled from the spec: `x.apply_diff(&d)` for `InactiveValidatorSummary`. -/
def InactiveValidatorSummary.apply_diff
    (x : InactiveValidatorSummary) (d : InactiveValidatorSummaryDiff) :
    InactiveValidatorSummary :=
  { account := x.account
    preferences := d.preferences.getD x.preferences
    self_stake := d.self_stake.getD x.self_stake
    active_next_session := d.active_next_session.getD x.active_next_session
    nominations := d.nominations.getD x.nominations
    oversubscribed := d.oversubscribed.getD x.oversubscribed
    slashed := d.slashed.getD x.slashed }

/-- Modelled from the spec: the update diff for `ValidatorDetails` (key field
`account`), the diff the server applies to its mirror. -/
structure ValidatorDetailsDiff where
  account : Account
  controller_account : Option Account
  preferences : Option ValidatorPreferences
  self_stake : Option Stake
  reward_destination : Option RewardDestination
  next_session_keys : Option String
  is_active : Option Bool
  active_next_session : Option Bool
  nominations : Option (List Nomination)
  oversubscribed : Option Bool
  slashed : Option Bool
  slash_count : Option Nat
  offline_offence_count : Option Nat
  active_era_count : Option Nat
  inactive_era_count : Option Nat
  total_reward_points : Option Nat
  unclaimed_era_indices : Option (List Nat)
  blocks_authored : Option Nat
  reward_points : Option Nat
  heartbeat_received : Option Bool
  onekv_candidate_record_id : Option (Option Nat)
  onekv_rank : Option (Option Nat)
  onekv_is_valid : Option (Option Bool)
deriving DecidableEq

/-- Modelled from the spec: `x.get_diff(&y)` for `ValidatorDetails`. -/
def ValidatorDetails.get_diff
    (x y : ValidatorDetails) : ValidatorDetailsDiff :=
  { account := x.account
    controller_account := diffField x.controller_account y.controller_account
    preferences := diffField x.preferences y.preferences
    self_stake := diffField x.self_stake y.self_stake
    reward_destination := diffField x.reward_destination y.reward_destination
    next_session_keys := diffField x.next_session_keys y.next_session_keys
    is_active := diffField x.is_active y.is_active
    active_next_session := diffField x.active_next_session y.active_next_session
    nominations := diffField x.nominations y.nominations
    oversubscribed := diffField x.oversubscribed y.oversubscribed
    slashed := diffField x.slashed y.slashed
    slash_count := diffField x.slash_count y.slash_count
    offline_offence_count := diffField x.offline_offence_count y.offline_offence_count
    active_era_count := diffField x.active_era_count y.active_era_count
    inactive_era_count := diffField x.inactive_era_count y.inactive_era_count
    total_reward_points := diffField x.total_reward_points y.total_reward_points
    unclaimed_era_indices := diffField x.unclaimed_era_indices y.unclaimed_era_indices
    blocks_authored := diffField x.blocks_authored y.blocks_authored
    reward_points := diffField x.reward_points y.reward_points
    heartbeat_received := diffField x.heartbeat_received y.heartbeat_received
    onekv_candidate_record_id :=
      diffField x.onekv_candidate_record_id y.onekv_candidate_record_id
    onekv_rank := diffField x.onekv_rank y.onekv_rank
    onekv_is_valid := diffField x.onekv_is_valid y.onekv_is_valid }

/-- Modelled from the spec: `x.apply_diff(&d)` for `ValidatorDetails`. -/
def ValidatorDetails.apply_diff
    (x : ValidatorDetails) (d : ValidatorDetailsDiff) : ValidatorDetails :=
  { account := x.account
    controller_account := d.controller_account.getD x.controller_account
    preferences := d.preferences.getD x.preferences
    self_stake := d.self_stake.getD x.self_stake
    reward_destination := d.reward_destination.getD x.reward_destination
    next_session_keys := d.next_session_keys.getD x.next_session_keys
    is_active := d.is_active.getD x.is_active
    active_next_session := d.active_next_session.getD x.active_next_session
    nominations := d.nominations.getD x.nominations
    oversubscribed := d.oversubscribed.getD x.oversubscribed
    slashed := d.slashed.getD x.slashed
    slash_count := d.slash_count.getD x.slash_count
    offline_offence_count := d.offline_offence_count.getD x.offline_offence_count
    active_era_count := d.active_era_count.getD x.active_era_count
    inactive_era_count := d.inactive_era_count.getD x.inactive_era_count
    total_reward_points := d.total_reward_points.getD x.total_reward_points
    unclaimed_era_indices := d.unclaimed_era_indices.getD x.unclaimed_era_indices
    blocks_authored := d.blocks_authored.getD x.blocks_authored
    reward_points := d.reward_points.getD x.reward_points
    heartbeat_received := d.heartbeat_received.getD x.heartbeat_received
    onekv_candidate_record_id :=
      d.onekv_candidate_record_id.getD x.onekv_candidate_record_id
    onekv_rank := d.onekv_rank.getD x.onekv_rank
    onekv_is_valid := d.onekv_is_valid.getD x.onekv_is_valid }

/-!
Change-detection hashing. Both the updater and the server build a
`DefaultHasher` with `DefaultHasher::new()`, feed the record to it through the
derived `Hash` impl (fields in declaration order) and call `finish()`.
`DefaultHasher` lives in the Rust standard library, not in this repository:
it is modelled from the spec as a stable 64-bit non-cryptographic hash with a
fixed algorithm and seed over the canonical field ordering of the record.
-/

/-- Modelled from the spec: the fixed initial state of the stable hasher
(`DefaultHasher::new()` takes no per-process seed). -/
def hasherInit : Nat := 14695981039346656037 % 2 ^ 64

/-- Modelled from the spec: one absorption step of the stable 64-bit hasher,
a fixed-constant multiply-add reduced modulo `2^64`. -/
def hasherWrite (state word : Nat) : Nat :=
  (state * 1099511628211 + word) % 2 ^ 64

/-- Modelled from the spec: the stable 64-bit hash of an encoded record —
fold the fixed absorption step over the words from the fixed initial state. -/
def stableHash64 (words : List Nat) : Nat :=
  words.foldl hasherWrite hasherInit

/-- Encoding of a `String` for hashing: length then the code points
(mirrors the derived `Hash` on `str`). -/
def encodeString (s : String) : List Nat :=
  s.length :: s.data.map Char.toNat

/-- Encoding of an `Option String` for hashing: discriminant then payload
(mirrors the derived `Hash` on `Option`). -/
def encodeOptionString : Option String → List Nat
  | Option.none => [0]
  | Option.some s => 1 :: encodeString s

/-- Encoding of `IdentityRegistrationSummary` in declaration field order. -/
def encodeIdentityRegistrationSummary (i : IdentityRegistrationSummary) : List Nat :=
  encodeOptionString i.display ++ [cond i.confirmed 1 0]

/-- Encoding of `AccountSummary` in declaration field order. -/
def encodeAccountSummary (a : AccountSummary) : List Nat :=
  a.id.value ::
    (match a.identity with
     | Option.none => [0]
     | Option.some i => 1 :: encodeIdentityRegistrationSummary i)

/-- Encoding of `InactiveValidatorSummary` in declaration field order
(account, preferences, self stake, active next session, nominations summary,
oversubscribed, slashed) — the canonical field ordering the spec fixes for
the change-detection hash. -/
def encodeValidatorSummary (v : InactiveValidatorSummary) : List Nat :=
  encodeAccountSummary v.account ++
  [v.preferences.commission_per_billion, cond v.preferences.blocks_nominations 1 0] ++
  [v.self_stake.stash_account_id.value, v.self_stake.active_amount] ++
  [cond v.active_next_session 1 0] ++
  [v.nominations.nomination_count, v.nominations.total_amount] ++
  [cond v.oversubscribed 1 0, cond v.slashed 1 0]

/-- Summary hash as the updater computes it before writing the
`summary_hash` key (`subvt-validator-list-updater/src/lib.rs`, the
`summary_hash` block of `update_redis`): a fresh `DefaultHasher`, the summary
projection of the validator hashed into it, then `finish()`. -/
def ValidatorListUpdater.summary_hash (validator : ValidatorDetails) : Nat :=
  stableHash64 (encodeValidatorSummary (ValidatorSummary.from validator))

/-- Summary hash as the list server recomputes it from its mirrored record
(`subvt-validator-list-server/src/lib.rs`, the `summary_hash` block of the
per-block pass): a fresh `DefaultHasher`, the summary projection of the
mirrored validator hashed into it, then `finish()`. -/
def ValidatorListServer.summary_hash (validator : ValidatorDetails) : Nat :=
  stableHash64 (encodeValidatorSummary (ValidatorSummary.from validator))

/-!
The list updater (`subvt-validator-list-updater/src/lib.rs`). The shared
buffer is modelled at per-block-prefix granularity: the state records which
block numbers own at least one key under their prefix, together with the
published pub/sub messages; the updater additionally keeps the in-process
`processed_block_numbers` list.
-/

/-- History depth constant of the updater (`HISTORY_BLOCK_DEPTH`). -/
def HISTORY_BLOCK_DEPTH : Nat := 3

/-- One Redis command of the per-block pipeline, at the granularity the
claims need: `del b` stands for the `DEL` commands of every key under block
`b`'s prefix, `msetValidators` for the single `MSET` carrying the active-era
JSON and the three per-validator keys (details JSON, full hash, summary
hash). -/
inductive RedisCommand where
  | del (block : Nat)
  | saddActive (block : Nat) (ids : List AccountId)
  | saddInactive (block : Nat) (ids : List AccountId)
  | msetValidators (block : Nat) (active_era : Era) (validators : List ValidatorDetails)
  | publish (block : Nat)
deriving DecidableEq

/-- Shared-buffer state at block granularity. -/
structure RedisStore where
  keyedBlocks : List Nat
  published : List Nat
deriving DecidableEq

/-- Effect of one pipeline command on the buffer. -/
def execCommand (store : RedisStore) : RedisCommand → RedisStore
  | .del b => { store with keyedBlocks := store.keyedBlocks.filter (fun k => k ≠ b) }
  | .saddActive b _ =>
      { store with keyedBlocks :=
          if store.keyedBlocks.contains b then store.keyedBlocks
          else store.keyedBlocks ++ [b] }
  | .saddInactive b _ =>
      { store with keyedBlocks :=
          if store.keyedBlocks.contains b then store.keyedBlocks
          else store.keyedBlocks ++ [b] }
  | .msetValidators b _ _ =>
      { store with keyedBlocks :=
          if store.keyedBlocks.contains b then store.keyedBlocks
          else store.keyedBlocks ++ [b] }
  | .publish b => { store with published := store.published ++ [b] }

/-- In-process state of the updater: the buffer plus the
`processed_block_numbers` history list. -/
structure UpdaterState where
  store : RedisStore
  processed : List Nat
deriving DecidableEq

/-- Initial updater state: buffer wiped at startup, empty history list. -/
def UpdaterState.init : UpdaterState :=
  { store := { keyedBlocks := [], published := [] }, processed := [] }

/-- Blocks whose keys the delete phase of `update_redis` removes: the first
`len - HISTORY_BLOCK_DEPTH` entries of the history list
(`iter().cloned().take(len.saturating_sub(HISTORY_BLOCK_DEPTH))`). -/
def historyToDelete (processed : List Nat) : List Nat :=
  processed.take (processed.length - HISTORY_BLOCK_DEPTH)

/-- History entries surviving the delete phase (one `remove(0)` per deleted
block). -/
def historyKept (processed : List Nat) : List Nat :=
  processed.drop (processed.length - HISTORY_BLOCK_DEPTH)

/-- Active account-id set written by `update_redis`
(`filter_map` keeping the ids of validators with `is_active`). -/
def activeAccountIds (validators : List ValidatorDetails) : List AccountId :=
  validators.filterMap
    (fun validator =>
      if validator.is_active then some validator.account.id else none)

/-- Inactive account-id set written by `update_redis`
(`filter_map` keeping the ids of validators without `is_active`). -/
def inactiveAccountIds (validators : List ValidatorDetails) : List AccountId :=
  validators.filterMap
    (fun validator =>
      if ¬ validator.is_active then some validator.account.id else none)

/-- The single per-block command pipeline of `update_redis`, in source
order: the history `DEL`s, the two `SADD`s, the `MSET` with the era and the
per-validator keys, and the `PUBLISH` of the finalized block number. -/
def buildBlockPipeline (toDelete : List Nat) (active_era : Era)
    (finalized_block_number : Nat) (validators : List ValidatorDetails) :
    List RedisCommand :=
  (toDelete.map RedisCommand.del) ++
  [RedisCommand.saddActive finalized_block_number (activeAccountIds validators),
   RedisCommand.saddInactive finalized_block_number (inactiveAccountIds validators),
   RedisCommand.msetValidators finalized_block_number active_era validators,
   RedisCommand.publish finalized_block_number]

/-- The per-block buffer update (`ValidatorListUpdater::update_redis`).
The delete phase trims the history list before the pipeline runs; on a
successful pipeline execution every command takes effect and the block is
pushed onto the history list; a failed pipeline execution (`query` error,
second component `false`) leaves the buffer as it was — the history list has
already been trimmed, the push does not happen. -/
def ValidatorListUpdater.update_redis (pipeline_ok : Bool) (u : UpdaterState)
    (active_era : Era) (finalized_block_number : Nat)
    (validators : List ValidatorDetails) : UpdaterState × Bool :=
  let toDelete := historyToDelete u.processed
  let kept := historyKept u.processed
  if pipeline_ok then
    ({ store :=
         (buildBlockPipeline toDelete active_era finalized_block_number
           validators).foldl execCommand u.store
       processed := kept ++ [finalized_block_number] }, true)
  else
    ({ store := u.store, processed := kept }, false)

/-- Fallible steps of one per-block run of the updater
(`fetch_and_update_validator_list`), as oracles: the chain and database
calls may each fail, serialization may fail, the pipeline execution may
fail. -/
structure UpdaterOracle where
  block_hash : Except String String
  active_era : Except String Era
  validators : Except String (List ValidatorDetails)
  enrich_ok : Bool
  serialize_ok : Bool
  pipeline_ok : Bool

/-- One per-block run of the updater
(`ValidatorListUpdater::fetch_and_update_validator_list` followed by
`update_redis`): resolve the block hash, fetch the active era and the
validator set, enrich from the relational store, serialize, then run
`update_redis`. Any failing step aborts the block (second component
`false`). -/
def ValidatorListUpdater.fetch_and_update (o : UpdaterOracle)
    (u : UpdaterState) (finalized_block_number : Nat) : UpdaterState × Bool :=
  match o.block_hash with
  | .error _ => (u, false)
  | .ok _ =>
    match o.active_era with
    | .error _ => (u, false)
    | .ok active_era =>
      match o.validators with
      | .error _ => (u, false)
      | .ok validators =>
        if o.enrich_ok then
          if o.serialize_ok then
            ValidatorListUpdater.update_redis o.pipeline_ok u active_era
              finalized_block_number validators
          else (u, false)
        else (u, false)

/-- Successful processing of a sequence of finalized blocks, each with its
era and validator set, starting from the given state. -/
def processBlocks (u : UpdaterState)
    (blocks : List (Nat × Era × List ValidatorDetails)) : UpdaterState :=
  blocks.foldl
    (fun acc blk =>
      (ValidatorListUpdater.update_redis true acc blk.2.1 blk.1 blk.2.2).1)
    u

/-!
The list server (`subvt-validator-list-server/src/lib.rs`). The in-process
mirror (`validator_map : HashMap<AccountId, ValidatorDetails>`) is modelled
as an association list; set and map iteration happen in list order. Buffer
reads are oracles; a `.error` result models a failed Redis read, and for the
JSON keys an `.ok none` models a `GET` that succeeded but whose payload
failed to parse.
-/

/-- The in-process validator mirror. -/
abbrev Mirror := List (AccountId × ValidatorDetails)

/-- Association-list lookup, modelling `HashMap::get`. -/
def Mirror.lookup (mirror : Mirror) (id : AccountId) : Option ValidatorDetails :=
  match mirror.find? (fun p => p.1 = id) with
  | Option.none => none
  | Option.some p => some p.2

/-- `HashMap::insert`: replace the mapped record when the key is present,
append otherwise. -/
def Mirror.insert (mirror : Mirror) (validator : ValidatorDetails) : Mirror :=
  if mirror.any (fun p => p.1 = validator.account.id) then
    mirror.map
      (fun p => if p.1 = validator.account.id then (p.1, validator) else p)
  else
    mirror ++ [(validator.account.id, validator)]

/-- The update message of the list pipeline
(`InactiveValidatorListUpdate` in `subvt-types/src/subvt.rs`; the server
source spells it `ValidatorListUpdate`). -/
structure InactiveValidatorListUpdate where
  finalized_block_number : Option Nat
  insert : List InactiveValidatorSummary
  update : List InactiveValidatorSummaryDiff
  remove_ids : List AccountId
deriving DecidableEq

/-- The derived `Default` of the update message: `None` block number and
empty lists. -/
def InactiveValidatorListUpdate.default : InactiveValidatorListUpdate :=
  { finalized_block_number := none
    insert := []
    update := []
    remove_ids := [] }

/-- The first message sent to a new subscriber
(`run_rpc_server`, the subscription callback): the summaries of every record
currently in the mirror as inserts, every other field from
`Default::default()`. -/
def ValidatorListServer.initial_snapshot (mirror : Mirror) :
    InactiveValidatorListUpdate :=
  let validator_summaries := mirror.map (fun p => ValidatorSummary.from p.2)
  { InactiveValidatorListUpdate.default with insert := validator_summaries }

/-- Buffer-read oracles of one per-block pass of the server: the
`SMEMBERS` of the account-id set, and per account id the `GET` of the
summary hash and the `GET`-plus-parse of the details JSON. -/
structure ServerOracle where
  account_id_set : Except String (List AccountId)
  db_summary_hash : AccountId → Except String Nat
  db_validator : AccountId → Except String (Option ValidatorDetails)

/-- Outcome of handling one pub/sub notification: deduplicated, completed
with a broadcast update, or failed — a failed pass ends the server's
pub/sub loop (the error is propagated or broken out of the loop; the server
does not proceed to the next notification). -/
inductive PassOutcome where
  | skipped
  | ok (update : InactiveValidatorListUpdate)
  | failed
deriving DecidableEq

/-- Result of handling one notification: the mirror afterwards, the
`last_finalized_block_number` afterwards, whether the buffer was read, and
the outcome. -/
structure PassResult where
  mirror : Mirror
  last : Nat
  did_read_buffer : Bool
  outcome : PassOutcome
deriving DecidableEq

/-- The read phase of the update/insert loop: for each id of the new set, an
id already mirrored has its recomputed summary hash compared against the
buffer's `summary_hash` key and, on mismatch, its JSON fetched, parsed and
turned into a summary diff plus a details diff; an id not yet mirrored has
its JSON fetched and parsed into an insert. Collects in iteration order
(summary diffs, details diffs, insert summaries, new records); any failed
read or parse fails the pass. -/
def passReads (o : ServerOracle) (mirror : Mirror) :
    List AccountId →
    Except Unit
      (List InactiveValidatorSummaryDiff × List ValidatorDetailsDiff ×
       List InactiveValidatorSummary × List ValidatorDetails)
  | [] => .ok ([], [], [], [])
  | id :: rest =>
    match Mirror.lookup mirror id with
    | Option.some validator =>
        match o.db_summary_hash id with
        | .error _ => .error ()
        | .ok db_hash =>
          if ValidatorListServer.summary_hash validator ≠ db_hash then
            match o.db_validator id with
            | .error _ => .error ()
            | .ok Option.none => .error ()
            | .ok (Option.some db_validator) =>
              match passReads o mirror rest with
              | .error e => .error e
              | .ok (summary_diffs, detail_diffs, inserts, new_validators) =>
                .ok
                  ((ValidatorSummary.from validator).get_diff
                      (ValidatorSummary.from db_validator) :: summary_diffs,
                   validator.get_diff db_validator :: detail_diffs,
                   inserts, new_validators)
          else
            passReads o mirror rest
    | Option.none =>
        match o.db_validator id with
        | .error _ => .error ()
        | .ok Option.none => .error ()
        | .ok (Option.some validator) =>
          match passReads o mirror rest with
          | .error e => .error e
          | .ok (summary_diffs, detail_diffs, inserts, new_validators) =>
            .ok (summary_diffs, detail_diffs,
                 ValidatorSummary.from validator :: inserts,
                 validator :: new_validators)

/-- The commit phase: each collected details diff is applied to the mirrored
record with its key (`get_mut(&diff.account.id)` then `apply_diff`), then
each new record is inserted. -/
def commitPass (mirror : Mirror) (detail_diffs : List ValidatorDetailsDiff)
    (new_validators : List ValidatorDetails) : Mirror :=
  let patched := detail_diffs.foldl
    (fun m d =>
      m.map (fun p =>
        if p.1 = d.account.id then (p.1, ValidatorDetails.apply_diff p.2 d) else p))
    mirror
  new_validators.foldl Mirror.insert patched

/-- The removal stage of a pass: the mirror after deleting every mirrored id
absent from the new account-id set; when the set read itself failed, the
mirror is untouched. -/
def removeStage (o : ServerOracle) (mirror : Mirror) : Mirror :=
  match o.account_id_set with
  | .error _ => mirror
  | .ok ids => mirror.filter (fun p => ids.contains p.1)

/-- Handling of one pub/sub notification of block `b` by the server's loop
(the body of `ValidatorListServer::run`): skip when `b` equals the last
processed block; otherwise read the account-id set, delete the mirrored ids
absent from it, run the read phase, commit the diffs and inserts, assemble
the `ValidatorListUpdate` and broadcast it, and record `b` as the last
processed block. A failed read or parse ends the loop with the mirror as it
stood. -/
def ValidatorListServer.processNotification (o : ServerOracle) (mirror : Mirror)
    (last : Nat) (b : Nat) : PassResult :=
  if b = last then
    { mirror := mirror, last := last, did_read_buffer := false,
      outcome := .skipped }
  else
    match o.account_id_set with
    | .error _ =>
        { mirror := mirror, last := last, did_read_buffer := true,
          outcome := .failed }
    | .ok ids =>
      match passReads o (mirror.filter (fun p => ids.contains p.1)) ids with
      | .error _ =>
          { mirror := mirror.filter (fun p => ids.contains p.1)
            last := last, did_read_buffer := true, outcome := .failed }
      | .ok (summary_diffs, detail_diffs, inserts, new_validators) =>
          { mirror := commitPass (mirror.filter (fun p => ids.contains p.1))
              detail_diffs new_validators
            last := b
            did_read_buffer := true
            outcome := .ok
              { finalized_block_number := some b
                insert := inserts
                update := summary_diffs
                remove_ids :=
                  (mirror.map Prod.fst).filter (fun id => ¬ ids.contains id) } }

/-- A run of the server's pub/sub loop over a list of notifications, each a
block number with that pass's buffer oracles. A failed pass ends the run. -/
def ValidatorListServer.runNotifications (mirror : Mirror) (last : Nat) :
    List (Nat × ServerOracle) → Mirror × Nat × List PassResult
  | [] => (mirror, last, [])
  | (b, o) :: rest =>
    let r := ValidatorListServer.processNotification o mirror last b
    match r.outcome with
    | .failed => (r.mirror, r.last, [r])
    | _ =>
      let (m', l', rs) := ValidatorListServer.runNotifications r.mirror r.last rest
      (m', l', r :: rs)

/-!
Theorems for the claims, one per claim, in claim order.
-/

/-- Plain account carrying only an id, used for concrete inputs. -/
def plainAccount (n : Nat) : Account :=
  .mk ⟨n⟩ none none none none none

/-- Era stakers whose stakes arrive from the chain in the unsorted order
30, 10, 20 — the failing input of the median-stake claim. -/
def unsortedEraStakers : EraStakers :=
  { era := ⟨1, 0, 0⟩
    stakers := [⟨plainAccount 1, 0, 30, []⟩,
                ⟨plainAccount 2, 0, 10, []⟩,
                ⟨plainAccount 3, 0, 20, []⟩] }

/-- C1: on stakers stored in the order 30, 10, 20 the source's
`EraStakers::median_stake` returns the stake at index `len / 2 = 1` of the
list as stored — 10 — while the median the claim describes (index `len / 2`
of the list sorted ascending by total stake) is 20. The code indexes without
sorting and contradicts its own doc comment ("Gets the median of all
stakes"). -/
theorem median_stake_indexes_without_sorting :
    EraStakers.median_stake unsortedEraStakers = some 10 ∧
    EraStakers.median_stake_sorted unsortedEraStakers = some 20 := by
  constructor <;> decide

/-- C10: the four stake statistics of `EraStakers` are partial — on a
non-empty stakers list each returns a value (`some`), and on the empty
stakers list each is the embedded panic (`none`: `unwrap` of `None` for
min/max, division by zero for average, out-of-range index for median). -/
theorem era_stakers_statistics_partiality (es : EraStakers) :
    (es.stakers ≠ [] →
      es.min_stake.isSome ∧ es.max_stake.isSome ∧
      es.average_stake.isSome ∧ es.median_stake.isSome) ∧
    (es.stakers = [] →
      es.min_stake = none ∧ es.max_stake = none ∧
      es.average_stake = none ∧ es.median_stake = none) := by
  obtain ⟨era, stakers⟩ := es
  cases stakers with
  | nil =>
      refine ⟨fun h => absurd rfl h, fun _ => ⟨rfl, rfl, rfl, rfl⟩⟩
  | cons x xs =>
      refine ⟨fun _ => ⟨?_, ?_, ?_, ?_⟩, fun h => by cases h⟩
      · simp [EraStakers.min_stake]
      · simp [EraStakers.max_stake]
      · simp [EraStakers.average_stake]
      · have hlt : (x :: xs).length / 2 < (x :: xs).length :=
          Nat.div_lt_self (Nat.succ_pos _) (by norm_num)
        simp only [EraStakers.median_stake, List.get?_eq_getElem?,
          List.getElem?_eq_getElem hlt]
        simp

/-- Era stakers with one staker, instantiating the non-empty case of the
partiality theorem. -/
def singletonEraStakers : EraStakers :=
  { era := ⟨1, 0, 0⟩, stakers := [⟨plainAccount 1, 2, 5, []⟩] }

/-- Era stakers with no stakers, instantiating the empty case of the
partiality theorem. -/
def emptyEraStakers : EraStakers :=
  { era := ⟨1, 0, 0⟩, stakers := [] }

/-- Witness for C10: both cases of the partiality theorem at concrete
inputs. -/
theorem era_stakers_statistics_partiality_witness :
    (singletonEraStakers.stakers ≠ [] ∧
      (singletonEraStakers.min_stake.isSome ∧
       singletonEraStakers.max_stake.isSome ∧
       singletonEraStakers.average_stake.isSome ∧
       singletonEraStakers.median_stake.isSome)) ∧
    (emptyEraStakers.stakers = [] ∧
      (emptyEraStakers.min_stake = none ∧
       emptyEraStakers.max_stake = none ∧
       emptyEraStakers.average_stake = none ∧
       emptyEraStakers.median_stake = none)) :=
  ⟨⟨List.cons_ne_nil _ _,
    (era_stakers_statistics_partiality singletonEraStakers).1
      (List.cons_ne_nil _ _)⟩,
   ⟨rfl, (era_stakers_statistics_partiality emptyEraStakers).2 rfl⟩⟩

/-- A changed value field overwrites, an unchanged one leaves the local
value — which already equals the new value. -/
theorem diffField_getD {α : Type} [DecidableEq α] (a b : α) :
    (diffField a b).getD a = b := by
  unfold diffField
  by_cases h : a = b <;> simp [h]

/-- C4: applying the diff produced by `x.get_diff(&y)` to `x` with
`apply_diff` yields `y` for every pair of records carrying the same key
field, both for the record type the buffer stores (`InactiveValidator`) and
for the full mirror record (`ValidatorDetails`) whose details diff the
server applies. -/
theorem get_diff_apply_diff_roundtrip :
    (∀ x y : InactiveValidator, x.account = y.account →
      x.apply_diff (x.get_diff y) = y) ∧
    (∀ x y : ValidatorDetails, x.account = y.account →
      x.apply_diff (x.get_diff y) = y) := by
  constructor
  · intro x y h
    obtain ⟨xa, xc, xp, xs, xr, xk, xan, xn, xo, xsl⟩ := x
    obtain ⟨ya, yc, yp, ys, yr, yk, yan, yn, yo, ysl⟩ := y
    simp only [InactiveValidator.get_diff, InactiveValidator.apply_diff,
      InactiveValidator.mk.injEq]
    exact ⟨h, diffField_getD _ _, diffField_getD _ _, diffField_getD _ _,
      diffField_getD _ _, diffField_getD _ _, diffField_getD _ _,
      diffField_getD _ _, diffField_getD _ _, diffField_getD _ _⟩
  · intro x y h
    obtain ⟨xa, x2, x3, x4, x5, x6, x7, x8, x9, x10, x11, x12, x13, x14, x15,
      x16, x17, x18, x19, x20, x21, x22, x23⟩ := x
    obtain ⟨ya, y2, y3, y4, y5, y6, y7, y8, y9, y10, y11, y12, y13, y14, y15,
      y16, y17, y18, y19, y20, y21, y22, y23⟩ := y
    simp only [ValidatorDetails.get_diff, ValidatorDetails.apply_diff,
      ValidatorDetails.mk.injEq]
    exact ⟨h, diffField_getD _ _, diffField_getD _ _, diffField_getD _ _,
      diffField_getD _ _, diffField_getD _ _, diffField_getD _ _,
      diffField_getD _ _, diffField_getD _ _, diffField_getD _ _,
      diffField_getD _ _, diffField_getD _ _, diffField_getD _ _,
      diffField_getD _ _, diffField_getD _ _, diffField_getD _ _,
      diffField_getD _ _, diffField_getD _ _, diffField_getD _ _,
      diffField_getD _ _, diffField_getD _ _, diffField_getD _ _,
      diffField_getD _ _⟩

/-- Concrete record for the diff-roundtrip witness. -/
def diffSampleX : InactiveValidator :=
  { account := plainAccount 1
    controller_account := plainAccount 2
    preferences := ⟨100, false⟩
    self_stake := ⟨⟨1⟩, 10, 8⟩
    reward_destination := .Staked
    next_session_keys := "aa"
    active_next_session := false
    nominations := []
    oversubscribed := false
    slashed := false }

/-- The same record with a changed commission and slashed flag. -/
def diffSampleY : InactiveValidator :=
  { diffSampleX with preferences := ⟨200, true⟩, slashed := true }

/-- Concrete mirror record for the details-diff half of the roundtrip
witness. -/
def detailsSampleX : ValidatorDetails :=
  { account := plainAccount 1
    controller_account := plainAccount 2
    preferences := ⟨100, false⟩
    self_stake := ⟨⟨1⟩, 10, 8⟩
    reward_destination := .Staked
    next_session_keys := "aa"
    is_active := false
    active_next_session := false
    nominations := []
    oversubscribed := false
    slashed := false
    slash_count := 0
    offline_offence_count := 0
    active_era_count := 0
    inactive_era_count := 0
    total_reward_points := 0
    unclaimed_era_indices := []
    blocks_authored := 0
    reward_points := 0
    heartbeat_received := false
    onekv_candidate_record_id := none
    onekv_rank := none
    onekv_is_valid := none }

/-- The same mirror record with a changed stake and blocks-authored count. -/
def detailsSampleY : ValidatorDetails :=
  { detailsSampleX with self_stake := ⟨⟨1⟩, 12, 9⟩, blocks_authored := 3 }

/-- Witness for C4: the roundtrip at concrete records sharing their key
field. -/
theorem get_diff_apply_diff_roundtrip_witness :
    (diffSampleX.account = diffSampleY.account ∧
      diffSampleX.apply_diff (diffSampleX.get_diff diffSampleY) = diffSampleY) ∧
    (detailsSampleX.account = detailsSampleY.account ∧
      detailsSampleX.apply_diff (detailsSampleX.get_diff detailsSampleY) =
        detailsSampleY) :=
  ⟨⟨rfl, get_diff_apply_diff_roundtrip.1 diffSampleX diffSampleY rfl⟩,
   ⟨rfl, get_diff_apply_diff_roundtrip.2 detailsSampleX detailsSampleY rfl⟩⟩

/-- C5: the 64-bit summary hash is a function of the record alone — the hash
the updater writes and the hash the server recomputes from an equal mirrored
record coincide for every record; both sites build the hasher from the fixed
seedless initial state, so no per-process value enters the computation. -/
theorem summary_hash_cross_process (v w : ValidatorDetails) (h : w = v) :
    ValidatorListServer.summary_hash w = ValidatorListUpdater.summary_hash v := by
  rw [h]
  rfl

/-- Witness for C5: the two sites' summary hashes agree at a concrete
record. -/
theorem summary_hash_cross_process_witness :
    ValidatorListServer.summary_hash detailsSampleX =
      ValidatorListUpdater.summary_hash detailsSampleX :=
  summary_hash_cross_process detailsSampleX detailsSampleX rfl

/-- Modelled from the spec: the chain client (`subvt-substrate-client`, not
among the provided sources) returns the validator set keyed by account id —
each account id occurs at most once in the returned list. -/
def chainClientKeyedByAccountId (validators : List ValidatorDetails) : Prop :=
  (validators.map (fun validator => validator.account.id)).Nodup

/-- C7: the active and inactive account-id sets `update_redis` writes are
disjoint, and their union is exactly the account ids of the validators the
chain client returned for the block, provided the chain client returns each
account id at most once. -/
theorem account_id_sets_disjoint_union (validators : List ValidatorDetails)
    (hnd : chainClientKeyedByAccountId validators) :
    (∀ id, ¬ (id ∈ activeAccountIds validators ∧
              id ∈ inactiveAccountIds validators)) ∧
    (∀ id, (id ∈ activeAccountIds validators ∨
            id ∈ inactiveAccountIds validators) ↔
           id ∈ validators.map (fun validator => validator.account.id)) := by
  constructor
  · rintro id ⟨ha, hi⟩
    rw [activeAccountIds, List.mem_filterMap] at ha
    rw [inactiveAccountIds, List.mem_filterMap] at hi
    obtain ⟨v, hv, hfv⟩ := ha
    obtain ⟨w, hw, hfw⟩ := hi
    have hva : v.is_active = true ∧ v.account.id = id := by
      cases hvb : v.is_active <;> simp [hvb] at hfv <;> exact ⟨rfl, hfv⟩
    have hwa : w.is_active = false ∧ w.account.id = id := by
      cases hwb : w.is_active <;> simp [hwb] at hfw <;> exact ⟨rfl, hfw⟩
    have hvw : v = w :=
      List.inj_on_of_nodup_map hnd hv hw (hva.2.trans hwa.2.symm)
    rw [hvw] at hva
    rw [hva.1] at hwa
    exact Bool.noConfusion hwa.1
  · intro id
    constructor
    · rintro (ha | hi)
      · rw [activeAccountIds, List.mem_filterMap] at ha
        obtain ⟨v, hv, hfv⟩ := ha
        have : v.account.id = id := by
          cases hvb : v.is_active <;> simp [hvb] at hfv
          exact hfv
        exact List.mem_map.mpr ⟨v, hv, this⟩
      · rw [inactiveAccountIds, List.mem_filterMap] at hi
        obtain ⟨v, hv, hfv⟩ := hi
        have : v.account.id = id := by
          cases hvb : v.is_active <;> simp [hvb] at hfv
          exact hfv
        exact List.mem_map.mpr ⟨v, hv, this⟩
    · intro hm
      obtain ⟨v, hv, hid⟩ := List.mem_map.mp hm
      by_cases hvb : v.is_active
      · exact Or.inl (List.mem_filterMap.mpr ⟨v, hv, by simp [hvb, hid]⟩)
      · exact Or.inr (List.mem_filterMap.mpr ⟨v, hv, by simp [hvb, hid]⟩)

/-- An active validator for the C7 witness. -/
def sampleValidatorActive : ValidatorDetails :=
  { detailsSampleX with account := plainAccount 1, is_active := true }

/-- An inactive validator for the C7 witness. -/
def sampleValidatorInactive : ValidatorDetails :=
  { detailsSampleX with account := plainAccount 2, is_active := false }

/-- Concrete validator set for the C7 witness. -/
def sampleValidatorSet : List ValidatorDetails :=
  [sampleValidatorActive, sampleValidatorInactive]

/-- Witness for C7: the disjoint-union property at a concrete two-validator
set with distinct account ids. -/
theorem account_id_sets_disjoint_union_witness :
    chainClientKeyedByAccountId sampleValidatorSet ∧
    ((∀ id, ¬ (id ∈ activeAccountIds sampleValidatorSet ∧
               id ∈ inactiveAccountIds sampleValidatorSet)) ∧
     (∀ id, (id ∈ activeAccountIds sampleValidatorSet ∨
             id ∈ inactiveAccountIds sampleValidatorSet) ↔
            id ∈ sampleValidatorSet.map
              (fun validator => validator.account.id))) :=
  ⟨by unfold chainClientKeyedByAccountId; decide,
   account_id_sets_disjoint_union sampleValidatorSet
     (by unfold chainClientKeyedByAccountId; decide)⟩

/-- The run of the spec's history-bound scenario: blocks 100 through 110,
each processed successfully (era and validator set contents are irrelevant
to key retention). -/
def blocks100to110 : List (Nat × Era × List ValidatorDetails) :=
  (List.range 11).map (fun i => (100 + i, ⟨1, 0, 0⟩, []))

/-- Counterexample to C2: after successfully processing blocks 100…110 the
in-process history list holds 4 block numbers (not at most 3), and the keys
under block 107 are still present (the claim asserts they are gone). -/
theorem history_retains_four_blocks :
    ((processBlocks UpdaterState.init blocks100to110).processed.length = 4) ∧
    (107 ∈ (processBlocks UpdaterState.init blocks100to110).store.keyedBlocks) := by
  constructor <;> decide

/-- The history list after one successful `update_redis` has at most 4
entries: the delete phase trims it to the last `HISTORY_BLOCK_DEPTH = 3`
entries and the new block is then pushed. -/
theorem processed_length_after_update (u : UpdaterState) (e : Era) (b : Nat)
    (vs : List ValidatorDetails) :
    ((ValidatorListUpdater.update_redis true u e b vs).1).processed.length ≤ 4 := by
  simp [ValidatorListUpdater.update_redis, historyKept, HISTORY_BLOCK_DEPTH]
  omega

/-- The history bound propagates through any successful run. -/
theorem processed_length_processBlocks (blocks : List (Nat × Era × List ValidatorDetails))
    (u : UpdaterState) (hu : u.processed.length ≤ 4) :
    (processBlocks u blocks).processed.length ≤ 4 := by
  induction blocks generalizing u with
  | nil => exact hu
  | cons blk rest ih =>
      exact ih _ (processed_length_after_update u blk.2.1 blk.1 blk.2.2)

/-- C2 (amended): the buffer retains at most `HISTORY_BLOCK_DEPTH + 1 = 4`
block prefixes — the delete phase keeps the last 3 history entries and the
current block is then added — and after successfully processing blocks
100…110 exactly the prefixes of blocks 107, 108, 109, 110 remain. -/
theorem history_retention_bound :
    (∀ blocks, (processBlocks UpdaterState.init blocks).processed.length ≤ 4) ∧
    ((processBlocks UpdaterState.init blocks100to110).store.keyedBlocks =
      [107, 108, 109, 110]) := by
  constructor
  · intro blocks
    exact processed_length_processBlocks blocks UpdaterState.init
      (by simp [UpdaterState.init])
  · decide

/-- No command of the per-block pipeline other than the final `PUBLISH`
touches the published-messages channel. -/
theorem published_after_pipeline (store : RedisStore) (toDelete : List Nat)
    (active_era : Era) (b : Nat) (validators : List ValidatorDetails) :
    ((buildBlockPipeline toDelete active_era b validators).foldl
        execCommand store).published = store.published ++ [b] := by
  unfold buildBlockPipeline
  induction toDelete generalizing store with
  | nil =>
      simp [List.foldl, execCommand]
  | cons d ds ih =>
      rw [List.map_cons, List.cons_append, List.foldl_cons]
      rw [ih (execCommand store (RedisCommand.del d))]
      rfl

/-- C6: the `PUBLISH` of the finalized block number is the last command of
the single per-block pipeline; a per-block run that fails at any step
(block-hash fetch, era fetch, validator fetch, enrichment, serialization or
pipeline execution) publishes nothing, and a successful run publishes
exactly the block number, once, at the end. -/
theorem publish_is_last_and_absent_on_failure :
    (∀ (toDelete : List Nat) (active_era : Era) (b : Nat)
        (validators : List ValidatorDetails),
      (buildBlockPipeline toDelete active_era b validators).getLast? =
        some (RedisCommand.publish b)) ∧
    (∀ (o : UpdaterOracle) (u : UpdaterState) (b : Nat),
      (ValidatorListUpdater.fetch_and_update o u b).2 = false →
        (ValidatorListUpdater.fetch_and_update o u b).1.store.published =
          u.store.published) ∧
    (∀ (o : UpdaterOracle) (u : UpdaterState) (b : Nat),
      (ValidatorListUpdater.fetch_and_update o u b).2 = true →
        (ValidatorListUpdater.fetch_and_update o u b).1.store.published =
          u.store.published ++ [b]) := by
  refine ⟨?_, ?_, ?_⟩
  · intro toDelete active_era b validators
    unfold buildBlockPipeline
    rw [List.getLast?_append_cons]
    rfl
  · intro o u b
    obtain ⟨bh, ae, vs, eok, sok, pok⟩ := o
    cases bh <;> cases ae <;> cases vs <;> cases eok <;> cases sok <;> cases pok <;>
      simp [ValidatorListUpdater.fetch_and_update,
        ValidatorListUpdater.update_redis, published_after_pipeline]
  · intro o u b
    obtain ⟨bh, ae, vs, eok, sok, pok⟩ := o
    cases bh <;> cases ae <;> cases vs <;> cases eok <;> cases sok <;> cases pok <;>
      simp [ValidatorListUpdater.fetch_and_update,
        ValidatorListUpdater.update_redis, published_after_pipeline]

/-- Per-block oracle in which every step succeeds. -/
def okOracle : UpdaterOracle :=
  { block_hash := .ok "0xabc"
    active_era := .ok ⟨1, 0, 0⟩
    validators := .ok sampleValidatorSet
    enrich_ok := true
    serialize_ok := true
    pipeline_ok := true }

/-- Per-block oracle whose pipeline execution fails. -/
def pipelineFailOracle : UpdaterOracle :=
  { okOracle with pipeline_ok := false }

/-- Witness for C6: at a concrete state, the pipeline ends in the `PUBLISH`,
a failed run leaves the published channel untouched and a successful run
publishes the block number. -/
theorem publish_is_last_and_absent_on_failure_witness :
    ((buildBlockPipeline [100] ⟨1, 0, 0⟩ 104 sampleValidatorSet).getLast? =
      some (RedisCommand.publish 104)) ∧
    ((ValidatorListUpdater.fetch_and_update pipelineFailOracle
        UpdaterState.init 104).1.store.published = UpdaterState.init.store.published) ∧
    ((ValidatorListUpdater.fetch_and_update okOracle
        UpdaterState.init 104).1.store.published =
      UpdaterState.init.store.published ++ [104]) :=
  ⟨publish_is_last_and_absent_on_failure.1 [100] ⟨1, 0, 0⟩ 104 sampleValidatorSet,
   publish_is_last_and_absent_on_failure.2.1 pipelineFailOracle
     UpdaterState.init 104 rfl,
   publish_is_last_and_absent_on_failure.2.2 okOracle UpdaterState.init 104 rfl⟩

/-- Mirror with two records, for the failing-pass counterexample. -/
def failMirror : Mirror :=
  [(⟨1⟩, detailsSampleX), (⟨2⟩, sampleValidatorInactive)]

/-- Buffer oracles of a pass in which the account-id set read succeeds (the
set has dropped the first validator) and every later read fails. -/
def failOracle : ServerOracle :=
  { account_id_set := .ok [⟨2⟩]
    db_summary_hash := fun _ => .error "read failure"
    db_validator := fun _ => .error "read failure" }

/-- Counterexample to C3: at block 5 the account-id set read succeeds, the
first validator is removed from the mirror, and then the summary-hash read
fails — the pass fails, yet the mirror has lost the removed record (it held
ids 1 and 2, it now holds only id 2), so the mirror is not left as it was;
moreover the outcome is a failed pass that ends the pub/sub loop rather
than a skip to the next notification. -/
theorem pass_failure_disturbs_mirror :
    ((ValidatorListServer.processNotification failOracle failMirror 0 5).outcome
      = .failed) ∧
    ((ValidatorListServer.processNotification failOracle failMirror 0 5).mirror.map
        Prod.fst = [⟨2⟩]) ∧
    (failMirror.map Prod.fst = [⟨1⟩, ⟨2⟩]) := by
  refine ⟨by decide, by decide, by decide⟩

/-- C3 (amended): when any buffer read or JSON parse of a per-block pass
fails, the mirror is left with exactly the removals of that pass committed
(untouched only when the account-id set read itself failed), no diff or
insert is applied, nothing is broadcast, and the server's pub/sub loop ends
with that notification instead of continuing with the next one. -/
theorem pass_failure_commits_only_removals (o : ServerOracle) (mirror : Mirror)
    (last b : Nat)
    (h : (ValidatorListServer.processNotification o mirror last b).outcome = .failed) :
    ((ValidatorListServer.processNotification o mirror last b).mirror =
      removeStage o mirror) ∧
    (∀ rest, ValidatorListServer.runNotifications mirror last ((b, o) :: rest) =
      ((ValidatorListServer.processNotification o mirror last b).mirror,
       (ValidatorListServer.processNotification o mirror last b).last,
       [ValidatorListServer.processNotification o mirror last b])) := by
  constructor
  · unfold ValidatorListServer.processNotification at h ⊢
    by_cases hb : b = last
    · simp [hb] at h
    · rw [if_neg hb] at h ⊢
      split
      next e heq =>
        simp [removeStage, heq]
      next ids heq =>
        simp only [heq] at h
        split
        next e2 heq2 =>
          simp [removeStage, heq]
        next sdiffs ddiffs ins newv heq2 =>
          simp only [heq2] at h
          simp at h
  · intro rest
    unfold ValidatorListServer.runNotifications
    simp only [h]

/-- Witness for C3 (amended): at the concrete failing pass, the mirror ends
exactly at the removal stage and the run over that single notification
stops there. -/
theorem pass_failure_commits_only_removals_witness :
    ((ValidatorListServer.processNotification failOracle failMirror 0 5).mirror =
      removeStage failOracle failMirror) ∧
    (ValidatorListServer.runNotifications failMirror 0 [(5, failOracle)] =
      ((ValidatorListServer.processNotification failOracle failMirror 0 5).mirror,
       (ValidatorListServer.processNotification failOracle failMirror 0 5).last,
       [ValidatorListServer.processNotification failOracle failMirror 0 5])) :=
  ⟨(pass_failure_commits_only_removals failOracle failMirror 0 5 (by decide)).1,
   (pass_failure_commits_only_removals failOracle failMirror 0 5 (by decide)).2 []⟩

/-- Buffer oracles of a block with an empty account-id set. -/
def emptyOracle : ServerOracle :=
  { account_id_set := .ok []
    db_summary_hash := fun _ => .error "unused"
    db_validator := fun _ => .error "unused" }

/-- Notification sequence 100, 101, then 100 again: the third notification
carries a block number the server has already processed but which is no
longer the last processed block. -/
def dupMessages : List (Nat × ServerOracle) :=
  [(100, emptyOracle), (101, emptyOracle), (100, emptyOracle)]

/-- Counterexample to C8: in the run 100, 101, 100 the third notification —
a block number already processed two passes earlier — is processed again:
the buffer is read and an update is broadcast, because the server
deduplicates only against the immediately preceding block number. -/
theorem duplicate_past_block_not_noop :
    (((ValidatorListServer.runNotifications [] 0 dupMessages).2.2.map
        (fun r => r.did_read_buffer)) = [true, true, true]) ∧
    (((ValidatorListServer.runNotifications [] 0 dupMessages).2.2.map
        (fun r => r.outcome)) =
      [.ok ⟨some 100, [], [], []⟩, .ok ⟨some 101, [], [], []⟩,
       .ok ⟨some 100, [], [], []⟩]) := by
  refine ⟨by decide, by decide⟩

/-- C8 (amended): a notification whose block number equals the last
processed block number is a no-op — the buffer is not read, the mirror is
unchanged and nothing is broadcast. -/
theorem duplicate_of_last_block_is_noop (o : ServerOracle) (mirror : Mirror)
    (last b : Nat) (h : b = last) :
    ValidatorListServer.processNotification o mirror last b =
      { mirror := mirror, last := last, did_read_buffer := false,
        outcome := .skipped } := by
  unfold ValidatorListServer.processNotification
  simp [h]

/-- Witness for C8 (amended): the duplicate of the last processed block at a
concrete state. -/
theorem duplicate_of_last_block_is_noop_witness :
    ValidatorListServer.processNotification emptyOracle [] 7 7 =
      { mirror := [], last := 7, did_read_buffer := false,
        outcome := .skipped } :=
  duplicate_of_last_block_is_noop emptyOracle [] 7 7 rfl

/-- C9: the first message to a new subscriber is the snapshot — a `None`
finalized block number, the summary projection of every record currently in
the mirror as inserts, and empty update and remove lists. -/
theorem initial_snapshot_is_full_mirror (mirror : Mirror) :
    ((ValidatorListServer.initial_snapshot mirror).finalized_block_number = none) ∧
    ((ValidatorListServer.initial_snapshot mirror).insert =
      mirror.map (fun p => ValidatorSummary.from p.2)) ∧
    ((ValidatorListServer.initial_snapshot mirror).update = []) ∧
    ((ValidatorListServer.initial_snapshot mirror).remove_ids = []) :=
  ⟨rfl, rfl, rfl, rfl⟩
